import Mathlib

/-!
Verification of the input translation layer of `controller_mapper.py`.

The `ControllerMapper` class translates raw gamepad events (from the
`inputs` library) into a controller-state snapshot pushed to an nxbt
virtual controller.  The translation logic (`_process_gamepad_event`),
connection polling (`connect_controller`), the input loop
(`_input_loop`) and thread management (`start_input_processing`) are
embedded below as pure functions; external effects (pushes to the
endpoint, log lines, sleeps, thread spawns) are made explicit in the
return values.
-/

/-- Modelled from the spec: the button identifier enumeration of the nxbt
module (`Buttons`), which is part of this repository but not under `src/`.
The spec lists the enumeration {B, A, X, Y, L, R, ZL, ZR, PLUS, MINUS,
HOME, DPAD_UP, DPAD_DOWN, DPAD_LEFT, DPAD_RIGHT}. -/
inductive NxButton where
  | B
  | A
  | X
  | Y
  | L
  | R
  | ZL
  | ZR
  | PLUS
  | MINUS
  | HOME
  | DPAD_UP
  | DPAD_DOWN
  | DPAD_LEFT
  | DPAD_RIGHT
  deriving DecidableEq

/-- One stick's sub-dictionary of the input packet, with keys
`X_VALUE` and `Y_VALUE`. -/
structure StickState where
  X_VALUE : Int
  Y_VALUE : Int
  deriving DecidableEq

/-- The controller input packet `self.current_input`: a dictionary with one
boolean entry per button plus the two stick sub-dictionaries. -/
structure ControllerInput where
  B : Bool
  A : Bool
  X : Bool
  Y : Bool
  L : Bool
  R : Bool
  ZL : Bool
  ZR : Bool
  PLUS : Bool
  MINUS : Bool
  HOME : Bool
  DPAD_UP : Bool
  DPAD_DOWN : Bool
  DPAD_LEFT : Bool
  DPAD_RIGHT : Bool
  L_STICK : StickState
  R_STICK : StickState
  deriving DecidableEq

/-- Modelled from the spec: `nx.create_input_packet()` (nxbt module, not
under `src/`).  Per spec §3, a newly constructed Snapshot has all buttons
released and both sticks centered. -/
def create_input_packet : ControllerInput :=
  { B := false, A := false, X := false, Y := false, L := false, R := false
    ZL := false, ZR := false, PLUS := false, MINUS := false, HOME := false
    DPAD_UP := false, DPAD_DOWN := false, DPAD_LEFT := false, DPAD_RIGHT := false
    L_STICK := { X_VALUE := 0, Y_VALUE := 0 }
    R_STICK := { X_VALUE := 0, Y_VALUE := 0 } }

/-- Dictionary read `current_input[button]`. -/
def get_button (s : ControllerInput) : NxButton → Bool
  | .B => s.B
  | .A => s.A
  | .X => s.X
  | .Y => s.Y
  | .L => s.L
  | .R => s.R
  | .ZL => s.ZL
  | .ZR => s.ZR
  | .PLUS => s.PLUS
  | .MINUS => s.MINUS
  | .HOME => s.HOME
  | .DPAD_UP => s.DPAD_UP
  | .DPAD_DOWN => s.DPAD_DOWN
  | .DPAD_LEFT => s.DPAD_LEFT
  | .DPAD_RIGHT => s.DPAD_RIGHT

/-- Dictionary write `current_input[button] = v`. -/
def set_button (s : ControllerInput) : NxButton → Bool → ControllerInput
  | .B, v => { s with B := v }
  | .A, v => { s with A := v }
  | .X, v => { s with X := v }
  | .Y, v => { s with Y := v }
  | .L, v => { s with L := v }
  | .R, v => { s with R := v }
  | .ZL, v => { s with ZL := v }
  | .ZR, v => { s with ZR := v }
  | .PLUS, v => { s with PLUS := v }
  | .MINUS, v => { s with MINUS := v }
  | .HOME, v => { s with HOME := v }
  | .DPAD_UP, v => { s with DPAD_UP := v }
  | .DPAD_DOWN, v => { s with DPAD_DOWN := v }
  | .DPAD_LEFT, v => { s with DPAD_LEFT := v }
  | .DPAD_RIGHT, v => { s with DPAD_RIGHT := v }

/-- Dictionary write `current_input[stick_name]['X_VALUE' / 'Y_VALUE'] = v`
(source lines 138-141: axis `'x'` writes `X_VALUE`, any other axis writes
`Y_VALUE`).  A `stick_name` other than the two keys present in the packet
would be a `KeyError` in the source; it cannot arise from the stick table,
and is modelled as leaving the packet unchanged. -/
def set_stick_axis (s : ControllerInput) (stick_name axis : String) (v : Int) :
    ControllerInput :=
  if axis = "x" then
    if stick_name = "L_STICK" then { s with L_STICK := { s.L_STICK with X_VALUE := v } }
    else if stick_name = "R_STICK" then { s with R_STICK := { s.R_STICK with X_VALUE := v } }
    else s
  else
    if stick_name = "L_STICK" then { s with L_STICK := { s.L_STICK with Y_VALUE := v } }
    else if stick_name = "R_STICK" then { s with R_STICK := { s.R_STICK with Y_VALUE := v } }
    else s

/-- Dictionary read counterpart of `set_stick_axis`, for stating theorems. -/
def get_stick_axis (s : ControllerInput) (stick_name axis : String) : Int :=
  if axis = "x" then
    if stick_name = "L_STICK" then s.L_STICK.X_VALUE else s.R_STICK.X_VALUE
  else
    if stick_name = "L_STICK" then s.L_STICK.Y_VALUE else s.R_STICK.Y_VALUE

/-- `self.button_mappings` (source lines 32-44). -/
def button_mappings : List (String × NxButton) :=
  [("BTN_SOUTH", .B), ("BTN_EAST", .A), ("BTN_NORTH", .X), ("BTN_WEST", .Y),
   ("BTN_TL", .L), ("BTN_TR", .R), ("BTN_TL2", .ZL), ("BTN_TR2", .ZR),
   ("BTN_START", .PLUS), ("BTN_SELECT", .MINUS), ("BTN_MODE", .HOME)]

/-- `self.stick_mappings` (source lines 47-52). -/
def stick_mappings : List (String × (String × String)) :=
  [("ABS_X", ("L_STICK", "x")), ("ABS_Y", ("L_STICK", "y")),
   ("ABS_RX", ("R_STICK", "x")), ("ABS_RY", ("R_STICK", "y"))]

/-- `self.trigger_mappings` (source lines 55-58). -/
def trigger_mappings : List (String × NxButton) :=
  [("ABS_Z", .ZL), ("ABS_RZ", .ZR)]

/-- Python `int((n / d) * 100)` for an integer `n` and positive literal `d`:
truncation toward zero of `n * 100 / d`.  (Checked exhaustively against
CPython float semantics over the full native ranges `0..255` for `d = 255`
and `-32768..32767` for `d = 32767`: the float computation and the exact
truncating division agree everywhere.) -/
def py_trunc_scale (n : Int) (d : Nat) : Int :=
  if 0 ≤ n then (((n * 100).toNat / d : Nat) : Int)
  else -((((-n) * 100).toNat / d : Nat) : Int)

/-- A raw event from the `inputs` library: `ev_type` (e.g. `'Key'`,
`'Absolute'`), `code` (e.g. `'BTN_SOUTH'`), and integer `state`. -/
structure GamepadEvent where
  ev_type : String
  code : String
  state : Int
  deriving DecidableEq

/-- `_process_gamepad_event` (source lines 91-145), as a function from the
current input packet and one event to the updated packet together with the
number of `nx.set_controller_input` pushes performed while processing the
event.  In test mode the event is only printed.  Debug logging is elided
(it does not touch the packet or the push count). -/
def _process_gamepad_event (test_mode : Bool) (s : ControllerInput)
    (e : GamepadEvent) : ControllerInput × Nat :=
  if test_mode then (s, 0)
  else if e.ev_type = "Key" then
    match button_mappings.lookup e.code with
    | some nxbt_button => (set_button s nxbt_button (e.state == 1), 1)
    | none => (s, 0)
  else if e.ev_type = "Absolute" then
    match trigger_mappings.lookup e.code with
    | some button =>
      (set_button s button (decide (py_trunc_scale e.state 255 > 50)), 1)
    | none =>
      if e.code = "ABS_HAT0X" then
        ({ s with DPAD_LEFT := e.state == -1, DPAD_RIGHT := e.state == 1 }, 0)
      else if e.code = "ABS_HAT0Y" then
        ({ s with DPAD_UP := e.state == -1, DPAD_DOWN := e.state == 1 }, 0)
      else
        match stick_mappings.lookup e.code with
        | some (stick_name, axis) =>
          (set_stick_axis s stick_name axis
            (if axis = "y" then -(py_trunc_scale e.state 32767)
             else py_trunc_scale e.state 32767), 1)
        | none => (s, 0)
  else (s, 0)

/-- Which events cause a `set_controller_input` push in
`_process_gamepad_event`: mapped Key events, mapped trigger events, and
mapped stick events — unconditionally, with no dirty check; d-pad hat
events and unmapped events never push. -/
def event_pushes (test_mode : Bool) (e : GamepadEvent) : Bool :=
  if test_mode then false
  else if e.ev_type = "Key" then (button_mappings.lookup e.code).isSome
  else if e.ev_type = "Absolute" then
    if (trigger_mappings.lookup e.code).isSome then true
    else if e.code = "ABS_HAT0X" then false
    else if e.code = "ABS_HAT0Y" then false
    else (stick_mappings.lookup e.code).isSome
  else false

/-- The rounding rule named by the spec (`round(value * 100 / 255)` etc.):
round to nearest.  Stated for nonnegative numerator; at the inputs where it
is used below the quotient is not a tie, so every round-to-nearest
convention agrees with it. -/
def round_nearest (n d : Nat) : Nat := (n + d / 2) / d

/-- One connection-state report read from `self.nx.state[idx]` during the
connect poll: the `'state'` string and the `'errors'` detail (rendered as a
string, as the f-string on source line 85 does). -/
structure EndpointReport where
  state : String
  errors : String
  deriving DecidableEq

/-- The mutable fields of `ControllerMapper` that the lifecycle methods
touch: the `running` flag, the input worker thread handle (`none` when no
thread exists), and the controller session index. -/
structure MapperState where
  running : Bool
  input_thread : Option Unit
  controller_idx : Option Nat
  deriving DecidableEq

/-- The polling loop of `connect_controller` (source lines 80-86), reading
the endpoint's successive state reports: `'connected'` breaks out of the
loop returning the controller index, `'crashed'` raises `ConnectionError`
with the reported error detail, anything else sleeps 100ms and polls again.
The unbounded source loop is observed through a finite list of reports;
`none` means the loop was still polling when the list ran out. -/
def connect_poll (controller_idx : Nat) :
    List EndpointReport → Option (Except String Nat)
  | [] => none
  | r :: rest =>
    if r.state = "connected" then some (Except.ok controller_idx)
    else if r.state = "crashed" then
      some (Except.error ("Controller failed to connect: " ++ r.errors))
    else connect_poll controller_idx rest

/-- `connect_controller` (source lines 67-89): outside test mode it stores
the newly created controller index (`nx.create_controller`, whose fresh
index is a parameter here) and polls; in test mode it returns 0 at once.
The returned `Option (Except String Nat)` is the poll outcome: `ok` the
returned index, `error` a raised `ConnectionError` message. -/
def connect_controller (m : MapperState) (test_mode : Bool) (new_idx : Nat)
    (reports : List EndpointReport) : MapperState × Option (Except String Nat) :=
  if !test_mode then
    ({ m with controller_idx := some new_idx }, connect_poll new_idx reports)
  else (m, some (Except.ok 0))

/-- The per-iteration state of `_input_loop` that one pull/apply cycle can
affect: the input packet, the log lines emitted so far, and how many
100ms error-recovery sleeps (`time.sleep(0.1)`) have run. -/
structure LoopState where
  current_input : ControllerInput
  log : List String
  sleep_count : Nat
  deriving DecidableEq

/-- The `for event in events` body of `_input_loop` (source lines 152-153):
events are applied in order; `raise_on` gives the exception message an
event's processing raises, if any (e.g. `set_controller_input` rejecting a
push).  An exception aborts the rest of the batch, keeping the mutations
already made. -/
def apply_batch (raise_on : GamepadEvent → Option String) :
    ControllerInput → List GamepadEvent → ControllerInput × Option String
  | s, [] => (s, none)
  | s, e :: rest =>
    match raise_on e with
    | some msg => ((_process_gamepad_event false s e).1, some msg)
    | none => apply_batch raise_on (_process_gamepad_event false s e).1 rest

/-- One iteration of the `while self.running` loop of `_input_loop`
(source lines 147-156).  `pull` is the outcome of `inputs.get_gamepad()`
(a batch of events, or a raised error).  Any exception from the pull or
from applying an event is caught by the `except` clause: the error is
logged and one 100ms sleep runs.  The returned `Bool` is the running flag
after the iteration (the loop body never writes it). -/
def input_loop_cycle (running : Bool) (st : LoopState)
    (pull : Except String (List GamepadEvent))
    (raise_on : GamepadEvent → Option String) : Bool × LoopState :=
  if running then
    match pull with
    | Except.error msg =>
      (running, { st with log := st.log ++ ["Error processing input: " ++ msg],
                          sleep_count := st.sleep_count + 1 })
    | Except.ok events =>
      match apply_batch raise_on st.current_input events with
      | (s', some msg) =>
        (running, { current_input := s',
                    log := st.log ++ ["Error processing input: " ++ msg],
                    sleep_count := st.sleep_count + 1 })
      | (s', none) => (running, { st with current_input := s' })
  else (running, st)

/-- `start_input_processing` (source lines 158-166): returns the updated
mapper state and the number of worker threads spawned by the call.  If an
input thread already exists the method returns immediately. -/
def start_input_processing (m : MapperState) : MapperState × Nat :=
  match m.input_thread with
  | some _ => (m, 0)
  | none => ({ m with running := true, input_thread := some () }, 1)

theorem lookup_pair_mem {β : Type} :
    ∀ (l : List (String × β)) (k : String) (b : β),
      List.lookup k l = some b → (k, b) ∈ l := by
  intro l
  induction l with
  | nil => intro k b h; simp [List.lookup] at h
  | cons p rest ih =>
    intro k b h
    obtain ⟨a, v⟩ := p
    simp only [List.lookup] at h
    cases hk : (k == a) with
    | true =>
      rw [hk] at h
      obtain rfl : v = b := Option.some.inj h
      have hka : k = a := eq_of_beq hk
      subst hka
      exact List.mem_cons_self _ _
    | false =>
      rw [hk] at h
      exact List.mem_cons_of_mem _ (ih k b h)

theorem get_set_button_self (s : ControllerInput) (b : NxButton) (v : Bool) :
    get_button (set_button s b v) b = v := by
  cases b <;> rfl

theorem get_set_button_of_ne (s : ControllerInput) (b b' : NxButton) (v : Bool)
    (h : b' ≠ b) : get_button (set_button s b v) b' = get_button s b' := by
  cases b <;> cases b' <;> first | rfl | exact absurd rfl h

theorem set_button_L_STICK (s : ControllerInput) (b : NxButton) (v : Bool) :
    (set_button s b v).L_STICK = s.L_STICK := by
  cases b <;> rfl

theorem set_button_R_STICK (s : ControllerInput) (b : NxButton) (v : Bool) :
    (set_button s b v).R_STICK = s.R_STICK := by
  cases b <;> rfl

theorem set_button_idem (s : ControllerInput) (b : NxButton) (v : Bool) :
    set_button (set_button s b v) b v = set_button s b v := by
  cases b <;> rfl

theorem set_stick_axis_idem (s : ControllerInput) (n a : String) (v : Int) :
    set_stick_axis (set_stick_axis s n a v) n a v = set_stick_axis s n a v := by
  unfold set_stick_axis
  split_ifs <;> rfl

theorem set_stick_axis_dpad (s : ControllerInput) (n a : String) (v : Int) :
    (set_stick_axis s n a v).DPAD_LEFT = s.DPAD_LEFT ∧
    (set_stick_axis s n a v).DPAD_RIGHT = s.DPAD_RIGHT ∧
    (set_stick_axis s n a v).DPAD_UP = s.DPAD_UP ∧
    (set_stick_axis s n a v).DPAD_DOWN = s.DPAD_DOWN := by
  unfold set_stick_axis
  split_ifs <;> exact ⟨rfl, rfl, rfl, rfl⟩

theorem set_button_dpad_preserved (s : ControllerInput) (b : NxButton) (v : Bool)
    (hl : b ≠ .DPAD_LEFT) (hr : b ≠ .DPAD_RIGHT) (hu : b ≠ .DPAD_UP)
    (hd : b ≠ .DPAD_DOWN) :
    (set_button s b v).DPAD_LEFT = s.DPAD_LEFT ∧
    (set_button s b v).DPAD_RIGHT = s.DPAD_RIGHT ∧
    (set_button s b v).DPAD_UP = s.DPAD_UP ∧
    (set_button s b v).DPAD_DOWN = s.DPAD_DOWN := by
  cases b
  case DPAD_LEFT => exact absurd rfl hl
  case DPAD_RIGHT => exact absurd rfl hr
  case DPAD_UP => exact absurd rfl hu
  case DPAD_DOWN => exact absurd rfl hd
  all_goals exact ⟨rfl, rfl, rfl, rfl⟩

theorem button_mappings_not_dpad (c : String) (b : NxButton)
    (h : button_mappings.lookup c = some b) :
    b ≠ .DPAD_LEFT ∧ b ≠ .DPAD_RIGHT ∧ b ≠ .DPAD_UP ∧ b ≠ .DPAD_DOWN := by
  have hm := lookup_pair_mem _ _ _ h
  have hall : ∀ p ∈ button_mappings,
      p.2 ≠ NxButton.DPAD_LEFT ∧ p.2 ≠ NxButton.DPAD_RIGHT ∧
      p.2 ≠ NxButton.DPAD_UP ∧ p.2 ≠ NxButton.DPAD_DOWN := by decide
  exact hall (c, b) hm

theorem trigger_mappings_not_dpad (c : String) (b : NxButton)
    (h : trigger_mappings.lookup c = some b) :
    b ≠ .DPAD_LEFT ∧ b ≠ .DPAD_RIGHT ∧ b ≠ .DPAD_UP ∧ b ≠ .DPAD_DOWN := by
  have hm := lookup_pair_mem _ _ _ h
  have hall : ∀ p ∈ trigger_mappings,
      p.2 ≠ NxButton.DPAD_LEFT ∧ p.2 ≠ NxButton.DPAD_RIGHT ∧
      p.2 ≠ NxButton.DPAD_UP ∧ p.2 ≠ NxButton.DPAD_DOWN := by decide
  exact hall (c, b) hm

theorem beq_neg_one_and_one (n : Int) : ((n == -1) && (n == 1)) = false := by
  by_cases h : n = -1 <;> simp [h]

/-- C10: calling `start_input_processing` while an input worker thread
already exists is a no-op: the call returns the mapper state unchanged
(running flag included) and spawns zero worker threads, so a second call
never creates a second worker. -/
theorem nxbt_C10_start_idempotent (m : MapperState) (h : m.input_thread ≠ none) :
    start_input_processing m = (m, 0) := by
  obtain ⟨u, hu⟩ := Option.ne_none_iff_exists'.mp h
  unfold start_input_processing
  rw [hu]

theorem nxbt_C10_start_idempotent_witness :
    start_input_processing ⟨true, some (), some 0⟩ = (⟨true, some (), some 0⟩, 0) :=
  nxbt_C10_start_idempotent ⟨true, some (), some 0⟩ (by decide)

theorem connect_poll_first_decisive (idx : Nat) (pre : List EndpointReport)
    (r : EndpointReport) (rest : List EndpointReport)
    (hpre : ∀ p ∈ pre, p.state ≠ "connected" ∧ p.state ≠ "crashed") :
    (r.state = "connected" →
      connect_poll idx (pre ++ r :: rest) = some (Except.ok idx)) ∧
    (r.state = "crashed" →
      connect_poll idx (pre ++ r :: rest) =
        some (Except.error ("Controller failed to connect: " ++ r.errors))) := by
  induction pre with
  | nil =>
    constructor
    · intro h; simp [connect_poll, h]
    · intro h; simp [connect_poll, h]
  | cons p ps ih =>
    have hp := hpre p (List.mem_cons_self p ps)
    have := ih (fun q hq => hpre q (List.mem_cons_of_mem p hq))
    constructor
    · intro h
      simp only [List.cons_append, connect_poll, if_neg hp.1, if_neg hp.2]
      exact this.1 h
    · intro h
      simp only [List.cons_append, connect_poll, if_neg hp.1, if_neg hp.2]
      exact this.2 h

/-- C5: outside test mode, `connect_controller` polls the endpoint's
reported connection state past any number of indeterminate reports until
the first decisive one: `'connected'` makes it return the controller
session index, `'crashed'` makes it raise ConnectionError carrying the
endpoint's reported error detail; in both cases the running flag and the
input worker thread handle are untouched, so no Input Loop is started. -/
theorem nxbt_C5_connect (m : MapperState) (new_idx : Nat)
    (pre : List EndpointReport) (r : EndpointReport) (rest : List EndpointReport)
    (hpre : ∀ p ∈ pre, p.state ≠ "connected" ∧ p.state ≠ "crashed") :
    (connect_controller m false new_idx (pre ++ r :: rest)).1.running = m.running ∧
    (connect_controller m false new_idx (pre ++ r :: rest)).1.input_thread
      = m.input_thread ∧
    (r.state = "connected" →
      (connect_controller m false new_idx (pre ++ r :: rest)).2
        = some (Except.ok new_idx)) ∧
    (r.state = "crashed" →
      (connect_controller m false new_idx (pre ++ r :: rest)).2
        = some (Except.error ("Controller failed to connect: " ++ r.errors))) := by
  have hpoll := connect_poll_first_decisive new_idx pre r rest hpre
  exact ⟨rfl, rfl, hpoll.1, hpoll.2⟩

theorem nxbt_C5_connect_witness :
    (connect_controller ⟨false, none, none⟩ false 3
        ([⟨"connecting", ""⟩] ++ ⟨"crashed", "BlueZ error"⟩ :: [])).1.running = false ∧
    (connect_controller ⟨false, none, none⟩ false 3
        ([⟨"connecting", ""⟩] ++ ⟨"crashed", "BlueZ error"⟩ :: [])).1.input_thread
      = none ∧
    (connect_controller ⟨false, none, none⟩ false 3
        ([⟨"connecting", ""⟩] ++ ⟨"crashed", "BlueZ error"⟩ :: [])).2
      = some (Except.error ("Controller failed to connect: " ++ "BlueZ error")) := by
  have h := nxbt_C5_connect ⟨false, none, none⟩ 3 [⟨"connecting", ""⟩]
    ⟨"crashed", "BlueZ error"⟩ [] (by decide)
  exact ⟨h.1, h.2.1, h.2.2.2 rfl⟩

/-- C6: for every error raised during one pull/apply cycle of the input
loop — a failing `inputs.get_gamepad()` pull, or an exception raised while
processing an event of the batch (e.g. a push failure from
`set_controller_input`) — the worker logs the error, runs one 100ms sleep,
and leaves the running flag true, so the loop continues to the next
iteration; no cycle error terminates the loop or escalates past it. -/
theorem nxbt_C6_error_recovery (st : LoopState)
    (pull : Except String (List GamepadEvent))
    (raise_on : GamepadEvent → Option String)
    (herr : (∃ msg, pull = Except.error msg) ∨
            (∃ events, pull = Except.ok events ∧
              (apply_batch raise_on st.current_input events).2.isSome = true)) :
    (input_loop_cycle true st pull raise_on).1 = true ∧
    (input_loop_cycle true st pull raise_on).2.sleep_count = st.sleep_count + 1 ∧
    (∃ msg, (input_loop_cycle true st pull raise_on).2.log =
      st.log ++ ["Error processing input: " ++ msg]) := by
  rcases herr with ⟨msg, rfl⟩ | ⟨events, rfl, hsome⟩
  · exact ⟨rfl, rfl, ⟨msg, rfl⟩⟩
  · obtain ⟨msg, hmsg⟩ := Option.isSome_iff_exists.mp hsome
    have hpair : apply_batch raise_on st.current_input events
        = ((apply_batch raise_on st.current_input events).1, some msg) := by
      rw [← hmsg]
    have hred : input_loop_cycle true st (Except.ok events) raise_on
        = match apply_batch raise_on st.current_input events with
          | (s', some m) =>
            (true, { current_input := s',
                     log := st.log ++ ["Error processing input: " ++ m],
                     sleep_count := st.sleep_count + 1 })
          | (s', none) => (true, { st with current_input := s' }) := rfl
    rw [hred, hpair]
    exact ⟨rfl, rfl, ⟨msg, rfl⟩⟩

theorem nxbt_C6_error_recovery_witness :
    (input_loop_cycle true ⟨create_input_packet, [], 0⟩
        (Except.error "device disconnected") (fun _ => none)).1 = true ∧
    (input_loop_cycle true ⟨create_input_packet, [], 0⟩
        (Except.error "device disconnected") (fun _ => none)).2.sleep_count = 0 + 1 ∧
    (∃ msg, (input_loop_cycle true ⟨create_input_packet, [], 0⟩
        (Except.error "device disconnected") (fun _ => none)).2.log =
      [] ++ ["Error processing input: " ++ msg]) :=
  nxbt_C6_error_recovery ⟨create_input_packet, [], 0⟩
    (Except.error "device disconnected") (fun _ => none)
    (Or.inl ⟨"device disconnected", rfl⟩)

/-- C8: an event whose identifier is absent from the button map, trigger
map, axis map and both d-pad hat identifiers leaves the input packet
entirely unchanged and performs no push; `_process_gamepad_event` is a
total function, so no error is raised. -/
theorem nxbt_C8_unmapped_noop (tm : Bool) (s : ControllerInput) (e : GamepadEvent)
    (hb : button_mappings.lookup e.code = none)
    (ht : trigger_mappings.lookup e.code = none)
    (hs : stick_mappings.lookup e.code = none)
    (hx : e.code ≠ "ABS_HAT0X") (hy : e.code ≠ "ABS_HAT0Y") :
    _process_gamepad_event tm s e = (s, 0) := by
  unfold _process_gamepad_event
  cases tm with
  | true => simp
  | false =>
    by_cases hk : e.ev_type = "Key"
    · simp [hk, hb]
    · by_cases ha : e.ev_type = "Absolute"
      · simp [hk, ha, ht, hx, hy, hs]
      · simp [hk, ha]

theorem nxbt_C8_unmapped_noop_witness :
    _process_gamepad_event false create_input_packet ⟨"Absolute", "ABS_MISC", 5⟩
      = (create_input_packet, 0) :=
  nxbt_C8_unmapped_noop false create_input_packet ⟨"Absolute", "ABS_MISC", 5⟩
    (by decide) (by decide) (by decide) (by decide) (by decide)

/-- C2 counterexample: at native trigger value 129 the claim's formula
round(129 * 100 / 255) = 51 > 50 predicts pressed, but the code's Python
int() truncation gives 50, so the mapped trigger button stays released. -/
theorem nxbt_C2_counterexample :
    round_nearest (129 * 100) 255 > 50 ∧
    get_button (_process_gamepad_event false create_input_packet
      ⟨"Absolute", "ABS_Z", 129⟩).1 NxButton.ZL = false := by decide

/-- C2 (amended): for every absolute event whose identifier is in the
trigger map with native value v in 0..255, the mapped button's state is
set to the boolean trunc(v * 100 / 255) > 50, where trunc is Python int()
truncation toward zero (not round); in particular v = 127 yields not
pressed, v = 255 yields pressed, and v = 0 yields not pressed. -/
theorem nxbt_C2_trigger_threshold (s : ControllerInput) (c : String)
    (b : NxButton) (v : Int)
    (h : trigger_mappings.lookup c = some b) (h0 : 0 ≤ v) (h255 : v ≤ 255) :
    get_button (_process_gamepad_event false s ⟨"Absolute", c, v⟩).1 b
      = decide (py_trunc_scale v 255 > 50) ∧
    py_trunc_scale 127 255 ≤ 50 ∧ py_trunc_scale 255 255 > 50 ∧
    py_trunc_scale 0 255 ≤ 50 := by
  refine ⟨?_, by decide, by decide, by decide⟩
  have hred : (_process_gamepad_event false s ⟨"Absolute", c, v⟩).1
      = set_button s b (decide (py_trunc_scale v 255 > 50)) := by
    unfold _process_gamepad_event
    simp [h]
  rw [hred, get_set_button_self]

theorem nxbt_C2_trigger_threshold_witness :
    get_button (_process_gamepad_event false create_input_packet
      ⟨"Absolute", "ABS_Z", 200⟩).1 NxButton.ZL
      = decide (py_trunc_scale 200 255 > 50) ∧
    py_trunc_scale 127 255 ≤ 50 ∧ py_trunc_scale 255 255 > 50 ∧
    py_trunc_scale 0 255 ≤ 50 :=
  nxbt_C2_trigger_threshold create_input_packet "ABS_Z" NxButton.ZL 200
    (by decide) (by decide) (by decide)

theorem py_trunc_scale_stick_bounds (v : Int) (hlo : -32768 ≤ v)
    (hhi : v ≤ 32767) :
    -100 ≤ py_trunc_scale v 32767 ∧ py_trunc_scale v 32767 ≤ 100 := by
  unfold py_trunc_scale
  split_ifs with h
  · have h1 : (v * 100).toNat ≤ 3276700 := by omega
    have h2 : (v * 100).toNat / 32767 ≤ 100 := by
      calc (v * 100).toNat / 32767 ≤ 3276700 / 32767 := Nat.div_le_div_right h1
        _ = 100 := by norm_num
    omega
  · have h1 : ((-v) * 100).toNat ≤ 3276800 := by omega
    have h2 : ((-v) * 100).toNat / 32767 ≤ 100 := by
      calc ((-v) * 100).toNat / 32767 ≤ 3276800 / 32767 := Nat.div_le_div_right h1
        _ = 100 := by norm_num
    omega

/-- C3 counterexample: at native stick value 17000 on ABS_RX the claim's
formula round(17000 * 100 / 32767) = 52 predicts the right stick x axis is
set to 52, but the code's Python int() truncation sets it to 51. -/
theorem nxbt_C3_counterexample :
    round_nearest (17000 * 100) 32767 = 52 ∧
    (_process_gamepad_event false create_input_packet
      ⟨"Absolute", "ABS_RX", 17000⟩).1.R_STICK.X_VALUE = 51 := by decide

/-- C3 (amended): for every absolute event whose identifier is in the axis
map with native value v in the native range -32768..32767, the mapped
stick axis is set to trunc(v * 100 / 32767) — Python int() truncation
toward zero, not round — negated when the mapped axis is "y"; over that
native range the scaled value already lies in [-100, 100], so no clamping
occurs in the code and none is needed; applying native value 0 always
yields normalized 0. -/
theorem nxbt_C3_stick_scaling (s : ControllerInput)
    (c stick_name axis : String) (v : Int)
    (h : stick_mappings.lookup c = some (stick_name, axis))
    (hlo : -32768 ≤ v) (hhi : v ≤ 32767) :
    get_stick_axis (_process_gamepad_event false s ⟨"Absolute", c, v⟩).1
        stick_name axis
      = (if axis = "y" then -(py_trunc_scale v 32767)
         else py_trunc_scale v 32767) ∧
    -100 ≤ py_trunc_scale v 32767 ∧ py_trunc_scale v 32767 ≤ 100 ∧
    py_trunc_scale 0 32767 = 0 := by
  have hbounds := py_trunc_scale_stick_bounds v hlo hhi
  refine ⟨?_, hbounds.1, hbounds.2, by decide⟩
  have hm := lookup_pair_mem _ _ _ h
  simp only [stick_mappings, List.mem_cons, List.not_mem_nil, or_false,
    Prod.mk.injEq] at hm
  rcases hm with ⟨rfl, rfl, rfl⟩ | ⟨rfl, rfl, rfl⟩ | ⟨rfl, rfl, rfl⟩ |
    ⟨rfl, rfl, rfl⟩ <;>
    simp [_process_gamepad_event, trigger_mappings, stick_mappings,
      List.lookup, set_stick_axis, get_stick_axis]

theorem nxbt_C3_stick_scaling_witness :
    get_stick_axis (_process_gamepad_event false create_input_packet
        ⟨"Absolute", "ABS_Y", 17000⟩).1 "L_STICK" "y"
      = (if "y" = "y" then -(py_trunc_scale 17000 32767)
         else py_trunc_scale 17000 32767) ∧
    -100 ≤ py_trunc_scale 17000 32767 ∧ py_trunc_scale 17000 32767 ≤ 100 ∧
    py_trunc_scale 0 32767 = 0 :=
  nxbt_C3_stick_scaling create_input_packet "ABS_Y" "L_STICK" "y" 17000
    (by decide) (by decide) (by decide)

/-- C7: for every discrete (Key) event whose identifier is in the button
map, applying the event sets exactly the mapped button's state to
(native value == 1): every other button keeps its previous state and both
sticks are unchanged. -/
theorem nxbt_C7_button_event (s : ControllerInput) (c : String) (b : NxButton)
    (v : Int) (h : button_mappings.lookup c = some b) :
    get_button (_process_gamepad_event false s ⟨"Key", c, v⟩).1 b = (v == 1) ∧
    (∀ b', b' ≠ b →
      get_button (_process_gamepad_event false s ⟨"Key", c, v⟩).1 b'
        = get_button s b') ∧
    (_process_gamepad_event false s ⟨"Key", c, v⟩).1.L_STICK = s.L_STICK ∧
    (_process_gamepad_event false s ⟨"Key", c, v⟩).1.R_STICK = s.R_STICK := by
  have hred : (_process_gamepad_event false s ⟨"Key", c, v⟩).1
      = set_button s b (v == 1) := by
    unfold _process_gamepad_event
    simp [h]
  rw [hred]
  exact ⟨get_set_button_self s b (v == 1),
    fun b' hb' => get_set_button_of_ne s b b' (v == 1) hb',
    set_button_L_STICK s b (v == 1), set_button_R_STICK s b (v == 1)⟩

theorem nxbt_C7_button_event_witness :
    get_button (_process_gamepad_event false create_input_packet
      ⟨"Key", "BTN_SOUTH", 1⟩).1 NxButton.B = ((1 : Int) == 1) ∧
    (∀ b', b' ≠ NxButton.B →
      get_button (_process_gamepad_event false create_input_packet
          ⟨"Key", "BTN_SOUTH", 1⟩).1 b'
        = get_button create_input_packet b') ∧
    (_process_gamepad_event false create_input_packet
      ⟨"Key", "BTN_SOUTH", 1⟩).1.L_STICK = create_input_packet.L_STICK ∧
    (_process_gamepad_event false create_input_packet
      ⟨"Key", "BTN_SOUTH", 1⟩).1.R_STICK = create_input_packet.R_STICK :=
  nxbt_C7_button_event create_input_packet "BTN_SOUTH" NxButton.B 1 (by decide)

/-- C1 counterexample: a mapped Key event that changes no field (pressing
BTN_SOUTH when B is already released... the release event with value 0 on a
fresh packet) still performs exactly one push, and a d-pad hat event that
does change a field (ABS_HAT0X = -1 sets DPAD_LEFT) performs no push at
all — refuting "one push if and only if at least one field changed". -/
theorem nxbt_C1_counterexample :
    ((_process_gamepad_event false create_input_packet
        ⟨"Key", "BTN_SOUTH", 0⟩).1 = create_input_packet ∧
      (_process_gamepad_event false create_input_packet
        ⟨"Key", "BTN_SOUTH", 0⟩).2 = 1) ∧
    ((_process_gamepad_event false create_input_packet
        ⟨"Absolute", "ABS_HAT0X", -1⟩).1 ≠ create_input_packet ∧
      (_process_gamepad_event false create_input_packet
        ⟨"Absolute", "ABS_HAT0X", -1⟩).2 = 0) := by decide

/-- C1 (amended): `_process_gamepad_event` performs exactly one
`set_controller_input` push for every mapped Key, trigger or stick event —
unconditionally, with no dirty check, even when no field changed value —
and performs no push for d-pad hat events (which only mutate the packet),
unmapped events, or test-mode events; it never performs more than one
push per raw event, so raw events are never batched into one push. -/
theorem nxbt_C1_push_discipline (tm : Bool) (s : ControllerInput)
    (e : GamepadEvent) :
    (_process_gamepad_event tm s e).2 = (if event_pushes tm e then 1 else 0) ∧
    (_process_gamepad_event tm s e).2 ≤ 1 := by
  have main : (_process_gamepad_event tm s e).2
      = (if event_pushes tm e then 1 else 0) := by
    unfold _process_gamepad_event event_pushes
    cases tm with
    | true => simp
    | false =>
      by_cases hk : e.ev_type = "Key"
      · simp only [Bool.false_eq_true, if_false, hk, if_true]
        cases hb : button_mappings.lookup e.code <;> simp [hb]
      · by_cases ha : e.ev_type = "Absolute"
        · simp only [Bool.false_eq_true, if_false, hk, ha, if_true]
          cases ht : trigger_mappings.lookup e.code
          · by_cases hx : e.code = "ABS_HAT0X"
            · simp [ht, hx]
            · by_cases hy : e.code = "ABS_HAT0Y"
              · simp [ht, hx, hy]
              · cases hs : stick_mappings.lookup e.code with
                | none => simp [ht, hx, hy, hs]
                | some p =>
                  obtain ⟨n, a⟩ := p
                  simp [ht, hx, hy, hs]
          · simp [ht]
        · simp [hk, ha]
  exact ⟨main, by rw [main]; split <;> omega⟩

/-- C4: an absolute event on ABS_HAT0X sets DPAD_LEFT to (v == -1) and
DPAD_RIGHT to (v == 1) — any other value, e.g. 0, yields both false — and
analogously ABS_HAT0Y sets DPAD_UP to (v == -1) and DPAD_DOWN to
(v == 1); moreover, from any packet in which LEFT/RIGHT (resp. UP/DOWN)
are not both pressed, no processed event can make them both pressed. -/
theorem nxbt_C4_dpad (s : ControllerInput) (v : Int) :
    (_process_gamepad_event false s ⟨"Absolute", "ABS_HAT0X", v⟩).1.DPAD_LEFT
      = (v == -1) ∧
    (_process_gamepad_event false s ⟨"Absolute", "ABS_HAT0X", v⟩).1.DPAD_RIGHT
      = (v == 1) ∧
    (_process_gamepad_event false s ⟨"Absolute", "ABS_HAT0Y", v⟩).1.DPAD_UP
      = (v == -1) ∧
    (_process_gamepad_event false s ⟨"Absolute", "ABS_HAT0Y", v⟩).1.DPAD_DOWN
      = (v == 1) ∧
    (∀ (tm : Bool) (e : GamepadEvent),
      (s.DPAD_LEFT && s.DPAD_RIGHT) = false →
      (s.DPAD_UP && s.DPAD_DOWN) = false →
      ((_process_gamepad_event tm s e).1.DPAD_LEFT
          && (_process_gamepad_event tm s e).1.DPAD_RIGHT) = false ∧
      ((_process_gamepad_event tm s e).1.DPAD_UP
          && (_process_gamepad_event tm s e).1.DPAD_DOWN) = false) := by
  refine ⟨rfl, rfl, rfl, rfl, ?_⟩
  intro tm e h1 h2
  cases tm with
  | true => exact ⟨h1, h2⟩
  | false =>
    by_cases hk : e.ev_type = "Key"
    · cases hb : button_mappings.lookup e.code with
      | none =>
        have hred : (_process_gamepad_event false s e).1 = s := by
          unfold _process_gamepad_event; simp [hk, hb]
        rw [hred]; exact ⟨h1, h2⟩
      | some b =>
        have hred : (_process_gamepad_event false s e).1
            = set_button s b (e.state == 1) := by
          unfold _process_gamepad_event; simp [hk, hb]
        have hnd := button_mappings_not_dpad e.code b hb
        have hp := set_button_dpad_preserved s b (e.state == 1)
          hnd.1 hnd.2.1 hnd.2.2.1 hnd.2.2.2
        rw [hred, hp.1, hp.2.1, hp.2.2.1, hp.2.2.2]
        exact ⟨h1, h2⟩
    · by_cases ha : e.ev_type = "Absolute"
      · cases ht : trigger_mappings.lookup e.code with
        | some b =>
          have hred : (_process_gamepad_event false s e).1
              = set_button s b (decide (py_trunc_scale e.state 255 > 50)) := by
            unfold _process_gamepad_event; simp [hk, ha, ht]
          have hnd := trigger_mappings_not_dpad e.code b ht
          have hp := set_button_dpad_preserved s b
            (decide (py_trunc_scale e.state 255 > 50))
            hnd.1 hnd.2.1 hnd.2.2.1 hnd.2.2.2
          rw [hred, hp.1, hp.2.1, hp.2.2.1, hp.2.2.2]
          exact ⟨h1, h2⟩
        | none =>
          by_cases hx : e.code = "ABS_HAT0X"
          · have hred : (_process_gamepad_event false s e).1
                = { s with DPAD_LEFT := e.state == -1,
                           DPAD_RIGHT := e.state == 1 } := by
              unfold _process_gamepad_event; simp [hk, ha, hx, trigger_mappings, List.lookup]
            rw [hred]
            exact ⟨beq_neg_one_and_one e.state, h2⟩
          · by_cases hy : e.code = "ABS_HAT0Y"
            · have hred : (_process_gamepad_event false s e).1
                  = { s with DPAD_UP := e.state == -1,
                             DPAD_DOWN := e.state == 1 } := by
                unfold _process_gamepad_event; simp [hk, ha, hx, hy, trigger_mappings, List.lookup]
              rw [hred]
              exact ⟨h1, beq_neg_one_and_one e.state⟩
            · cases hs : stick_mappings.lookup e.code with
              | none =>
                have hred : (_process_gamepad_event false s e).1 = s := by
                  unfold _process_gamepad_event; simp [hk, ha, ht, hx, hy, hs]
                rw [hred]; exact ⟨h1, h2⟩
              | some p =>
                obtain ⟨n, a⟩ := p
                have hred : (_process_gamepad_event false s e).1
                    = set_stick_axis s n a
                        (if a = "y" then -(py_trunc_scale e.state 32767)
                         else py_trunc_scale e.state 32767) := by
                  unfold _process_gamepad_event; simp [hk, ha, ht, hx, hy, hs]
                have hp := set_stick_axis_dpad s n a
                  (if a = "y" then -(py_trunc_scale e.state 32767)
                   else py_trunc_scale e.state 32767)
                rw [hred, hp.1, hp.2.1, hp.2.2.1, hp.2.2.2]
                exact ⟨h1, h2⟩
      · have hred : (_process_gamepad_event false s e).1 = s := by
          unfold _process_gamepad_event; simp [hk, ha]
        rw [hred]; exact ⟨h1, h2⟩

theorem nxbt_C4_dpad_witness :
    ((_process_gamepad_event false create_input_packet
        ⟨"Key", "BTN_EAST", 1⟩).1.DPAD_LEFT
      && (_process_gamepad_event false create_input_packet
        ⟨"Key", "BTN_EAST", 1⟩).1.DPAD_RIGHT) = false ∧
    ((_process_gamepad_event false create_input_packet
        ⟨"Key", "BTN_EAST", 1⟩).1.DPAD_UP
      && (_process_gamepad_event false create_input_packet
        ⟨"Key", "BTN_EAST", 1⟩).1.DPAD_DOWN) = false :=
  (nxbt_C4_dpad create_input_packet 0).2.2.2.2 false ⟨"Key", "BTN_EAST", 1⟩
    (by decide) (by decide)

/-- C9: applying the same raw event twice in a row yields the same packet
as applying it once — every branch of `_process_gamepad_event` overwrites
fields with values computed from the event alone, never accumulating. -/
theorem nxbt_C9_idempotent (tm : Bool) (s : ControllerInput) (e : GamepadEvent) :
    (_process_gamepad_event tm (_process_gamepad_event tm s e).1 e).1
      = (_process_gamepad_event tm s e).1 := by
  cases tm with
  | true => rfl
  | false =>
    by_cases hk : e.ev_type = "Key"
    · cases hb : button_mappings.lookup e.code with
      | none =>
        have hred : ∀ t, (_process_gamepad_event false t e).1 = t := by
          intro t; unfold _process_gamepad_event; simp [hk, hb]
        rw [hred, hred]
      | some b =>
        have hred : ∀ t, (_process_gamepad_event false t e).1
            = set_button t b (e.state == 1) := by
          intro t; unfold _process_gamepad_event; simp [hk, hb]
        rw [hred, hred, set_button_idem]
    · by_cases ha : e.ev_type = "Absolute"
      · cases ht : trigger_mappings.lookup e.code with
        | some b =>
          have hred : ∀ t, (_process_gamepad_event false t e).1
              = set_button t b (decide (py_trunc_scale e.state 255 > 50)) := by
            intro t; unfold _process_gamepad_event; simp [hk, ha, ht]
          rw [hred, hred, set_button_idem]
        | none =>
          by_cases hx : e.code = "ABS_HAT0X"
          · have hred : ∀ t, (_process_gamepad_event false t e).1
                = { t with DPAD_LEFT := e.state == -1,
                           DPAD_RIGHT := e.state == 1 } := by
              intro t; unfold _process_gamepad_event; simp [hk, ha, hx, trigger_mappings, List.lookup]
            rw [hred, hred]
          · by_cases hy : e.code = "ABS_HAT0Y"
            · have hred : ∀ t, (_process_gamepad_event false t e).1
                  = { t with DPAD_UP := e.state == -1,
                             DPAD_DOWN := e.state == 1 } := by
                intro t; unfold _process_gamepad_event; simp [hk, ha, hx, hy, trigger_mappings, List.lookup]
              rw [hred, hred]
            · cases hs : stick_mappings.lookup e.code with
              | none =>
                have hred : ∀ t, (_process_gamepad_event false t e).1 = t := by
                  intro t; unfold _process_gamepad_event
                  simp [hk, ha, ht, hx, hy, hs]
                rw [hred, hred]
              | some p =>
                obtain ⟨n, a⟩ := p
                have hred : ∀ t, (_process_gamepad_event false t e).1
                    = set_stick_axis t n a
                        (if a = "y" then -(py_trunc_scale e.state 32767)
                         else py_trunc_scale e.state 32767) := by
                  intro t; unfold _process_gamepad_event
                  simp [hk, ha, ht, hx, hy, hs]
                rw [hred, hred, set_stick_axis_idem]
      · have hred : ∀ t, (_process_gamepad_event false t e).1 = t := by
          intro t; unfold _process_gamepad_event; simp [hk, ha]
        rw [hred, hred]
